import Mathlib

/-!
Shallow embedding of the flow-execution runtime (contacts, channel
resolution, the classifier action, the server asset source and the
dependency validator), with theorems checking the specification's claims
against it.  Go slices and pointers that may be nil are modelled as
`Option`; machine state threaded through an action is made explicit.
-/

namespace InclusiveFlow

/-- A group membership as stored on a contact (flows/contact.go, type Group:
a uuid and a name). -/
structure Group where
  uuid : String
  name : String
deriving DecidableEq

/-- Contact fields (flows/fields.go is outside the sources; only emptiness
matters here, so a field map is a list of key/value pairs). -/
abbrev Fields := List (String × String)

/-- NewFields returns a fresh empty fields value. -/
def NewFields : Fields := []

/-- A contact (flows/contact.go, type Contact).  The urns and groups slices
and the fields pointer can be nil in Go; nil is `none` and a non-nil value
is `some`. -/
structure Contact where
  uuid : String
  name : String
  language : String
  urns : Option (List String)
  groups : Option (List Group)
  fields : Option Fields
deriving DecidableEq

/-- Contact.AddGroup (flows/contact.go:29-31): append a new Group to the
contact's group list.  Go append on a nil slice allocates a fresh slice,
hence the `getD []`. -/
def Contact.AddGroup (c : Contact) (uuid name : String) : Contact :=
  { c with groups := some ((c.groups.getD []) ++ [{ uuid := uuid, name := name }]) }

/-- The loop of Contact.RemoveGroup: remove the first group with the given
uuid, reporting whether one was found. -/
def removeGroupLoop (gs : List Group) (uuid : String) : List Group × Bool :=
  match gs with
  | [] => ([], false)
  | g :: rest =>
    if g.uuid = uuid then (rest, true)
    else
      let r := removeGroupLoop rest uuid
      (g :: r.1, r.2)

/-- Contact.RemoveGroup (flows/contact.go:32-40): remove the first group
with the given uuid and return true, or return false leaving the contact
unchanged. -/
def Contact.RemoveGroup (c : Contact) (uuid : String) : Contact × Bool :=
  let r := removeGroupLoop (c.groups.getD []) uuid
  if r.2 then ({ c with groups := some r.1 }, true) else (c, false)

/-- The JSON envelope of a contact (flows/contact.go, contactEnvelope).  A
JSON member that is absent or null decodes to a nil Go slice/pointer,
modelled as `none`. -/
structure contactEnvelope where
  uuid : String
  name : String
  language : String
  urns : Option (List String)
  groups : Option (List Group)
  fields : Option Fields
deriving DecidableEq

/-- Contact.UnmarshalJSON (flows/contact.go:104-136), after the envelope has
been decoded: copy the scalar fields and replace nil urns, groups and
fields with fresh empty values. -/
def Contact.UnmarshalJSON (ce : contactEnvelope) : Contact :=
  { uuid := ce.uuid
    name := ce.name
    language := ce.language
    urns := some (ce.urns.getD [])
    groups := some (ce.groups.getD [])
    fields := some (ce.fields.getD NewFields) }

/-- A concrete contact used to exercise the group operations. -/
def contact0 : Contact :=
  { uuid := "8720f157", name := "Ben Haggerty", language := "eng",
    urns := some [], groups := some [], fields := some NewFields }

/-- A concrete contact with one group membership. -/
def contact1 : Contact :=
  { contact0 with groups := some [{ uuid := "g1", name := "Testers" }] }

lemma removeGroupLoop_not_found (gs : List Group) (u : String)
    (h : ∀ g ∈ gs, g.uuid ≠ u) : removeGroupLoop gs u = (gs, false) := by
  induction gs with
  | nil => rfl
  | cons g rest ih =>
    have hg : g.uuid ≠ u := h g (List.mem_cons_self g rest)
    have hrest := ih (fun x hx => h x (List.mem_cons_of_mem g hx))
    simp [removeGroupLoop, hg, hrest]

lemma removeGroupLoop_found (gs : List Group) (u : String)
    (h : ∃ g ∈ gs, g.uuid = u) :
    ∃ pre g post, gs = pre ++ g :: post ∧ g.uuid = u ∧ (∀ x ∈ pre, x.uuid ≠ u) ∧
      removeGroupLoop gs u = (pre ++ post, true) := by
  induction gs with
  | nil => simp at h
  | cons g0 rest ih =>
    by_cases hg : g0.uuid = u
    · exact ⟨[], g0, rest, by simp, hg, by simp, by simp [removeGroupLoop, hg]⟩
    · obtain ⟨g, hmem, hgu⟩ := h
      rcases List.mem_cons.mp hmem with heq | hrest
      · exact absurd (heq ▸ hgu) hg
      · obtain ⟨pre, gm, post, hsplit, hgm, hpre, hrun⟩ := ih ⟨g, hrest, hgu⟩
        refine ⟨g0 :: pre, gm, post, by simp [hsplit], hgm, ?_, ?_⟩
        · intro x hx
          rcases List.mem_cons.mp hx with rfl | hx2
          · exact hg
          · exact hpre x hx2
        · simp [removeGroupLoop, hg, hrun]

/-- C8 (counterexample): Contact.AddGroup appends unconditionally, so two
AddGroup calls with the same uuid leave two group entries with that uuid;
the de-duplication the claim states does not hold. -/
theorem claim_C8_counterexample :
    (((contact0.AddGroup "b7cf0d83" "Testers").AddGroup "b7cf0d83" "Analysts").groups.getD [])
        = [{ uuid := "b7cf0d83", name := "Testers" }, { uuid := "b7cf0d83", name := "Analysts" }] ∧
    (((contact0.AddGroup "b7cf0d83" "Testers").AddGroup "b7cf0d83" "Analysts").groups.getD []).countP
        (fun g => decide (g.uuid = "b7cf0d83")) = 2 := by
  constructor
  · rfl
  · rfl

/-- C8 (amended): Contact.AddGroup appends a membership without any
de-duplication, so adding the same group uuid twice always yields a group
list holding at least two entries with that uuid. -/
theorem claim_C8_add_group_duplicates (c : Contact) (u na nb : String) :
    2 ≤ (((c.AddGroup u na).AddGroup u nb).groups.getD []).countP
        (fun g => decide (g.uuid = u)) := by
  simp [Contact.AddGroup, List.countP_append, List.countP_cons]

/-- C9: removing a group uuid that is not a member returns false and leaves
the whole contact unchanged; removing a member uuid removes its first
occurrence (everything before it kept, unmatched) and returns true, leaving
every other contact field unchanged. -/
theorem claim_C9_remove_group (c : Contact) (uuid : String) :
    ((∀ g ∈ c.groups.getD [], g.uuid ≠ uuid) → c.RemoveGroup uuid = (c, false)) ∧
    ((∃ g ∈ c.groups.getD [], g.uuid = uuid) →
      (c.RemoveGroup uuid).2 = true ∧
      ∃ pre g post, c.groups.getD [] = pre ++ g :: post ∧ g.uuid = uuid ∧
        (∀ x ∈ pre, x.uuid ≠ uuid) ∧
        (c.RemoveGroup uuid).1 = { c with groups := some (pre ++ post) }) := by
  constructor
  · intro h
    simp [Contact.RemoveGroup, removeGroupLoop_not_found _ _ h]
  · intro h
    obtain ⟨pre, g, post, hsplit, hgu, hpre, hrun⟩ := removeGroupLoop_found _ _ h
    refine ⟨?_, pre, g, post, hsplit, hgu, hpre, ?_⟩
    · simp [Contact.RemoveGroup, hrun]
    · simp [Contact.RemoveGroup, hrun]

/-- C9 (witness): on a contact with the single group g1, removing g9 is a
"not found" no-op and removing g1 succeeds. -/
theorem claim_C9_witness :
    (∀ g ∈ contact1.groups.getD [], g.uuid ≠ "g9") ∧
    contact1.RemoveGroup "g9" = (contact1, false) ∧
    (∃ g ∈ contact1.groups.getD [], g.uuid = "g1") ∧
    (contact1.RemoveGroup "g1").2 = true := by
  have h1 : ∀ g ∈ contact1.groups.getD [], g.uuid ≠ "g9" := by decide
  have h2 : ∃ g ∈ contact1.groups.getD [], g.uuid = "g1" := by decide
  exact ⟨h1, (claim_C9_remove_group contact1 "g9").1 h1, h2,
    ((claim_C9_remove_group contact1 "g1").2 h2).1⟩

/-- C10: decoding a contact whose urns, groups or fields member was absent
or null (a nil Go value) yields empty non-nil urns, groups and fields, and
a decoded contact never carries a nil value for any of the three. -/
theorem claim_C10_decode_defaults (ce : contactEnvelope) :
    (ce.urns = none → (Contact.UnmarshalJSON ce).urns = some []) ∧
    (ce.groups = none → (Contact.UnmarshalJSON ce).groups = some []) ∧
    (ce.fields = none → (Contact.UnmarshalJSON ce).fields = some NewFields) ∧
    (Contact.UnmarshalJSON ce).urns.isSome = true ∧
    (Contact.UnmarshalJSON ce).groups.isSome = true ∧
    (Contact.UnmarshalJSON ce).fields.isSome = true := by
  refine ⟨fun h => ?_, fun h => ?_, fun h => ?_, ?_, ?_, ?_⟩ <;>
    simp [Contact.UnmarshalJSON] <;> simp [h]

/-- An envelope as decoded from a JSON document with absent urns, groups
and fields members. -/
def envelope0 : contactEnvelope :=
  { uuid := "35c9c3c6", name := "Joe", language := "fra",
    urns := none, groups := none, fields := none }

/-- C10 (witness): the defaults theorem applied to a concrete envelope with
all three members absent. -/
theorem claim_C10_witness :
    envelope0.urns = none ∧ (Contact.UnmarshalJSON envelope0).urns = some [] ∧
    envelope0.groups = none ∧ (Contact.UnmarshalJSON envelope0).groups = some [] ∧
    envelope0.fields = none ∧ (Contact.UnmarshalJSON envelope0).fields = some NewFields :=
  ⟨rfl, (claim_C10_decode_defaults envelope0).1 rfl,
    rfl, (claim_C10_decode_defaults envelope0).2.1 rfl,
    rfl, (claim_C10_decode_defaults envelope0).2.2.1 rfl⟩

/-- Channel capability roles (send, receive, call, answer). -/
inductive ChannelRole
  | send
  | receive
  | call
  | answer
deriving DecidableEq

/-- Modelled from the spec: a channel definition.  The channel code
(flows/channel.go) is not among the sources - only its test is - so the
fields follow the ChannelAssets description: uuid, name, address, scheme
set, role set, optional country, optional explicit matching
number-prefixes, and an optional delegation relation to a parent channel
held as an identity, not a pointer. -/
structure Channel where
  uuid : String
  name : String
  address : String
  schemes : List String
  roles : List ChannelRole
  country : Option String
  matchPrefixes : List String
  parentUUID : Option String
deriving DecidableEq

/-- Channel.HasRole: whether the channel carries the given role. -/
def Channel.HasRole (c : Channel) (r : ChannelRole) : Bool :=
  c.roles.contains r

/-- A contact URN: scheme, path, and the optionally pinned
(previously-bound) channel. -/
structure ContactURN where
  scheme : String
  path : String
  channel : Option Channel
deriving DecidableEq

/-- The digits of a string in order (drops a leading plus and any other
non-digit). -/
def digitsOf (s : String) : List Char :=
  s.toList.filter Char.isDigit

/-- Length of the longest common prefix of two character lists. -/
def commonPrefixLen : List Char → List Char → Nat
  | a :: as, b :: bs => if a = b then commonPrefixLen as bs + 1 else 0
  | _, _ => 0

/-- Modelled from the spec: rule 5's overlap score, the length of the
longest common leading-digit run between the candidate's address and the
URN's number. -/
def Channel.overlap (c : Channel) (num : List Char) : Nat :=
  commonPrefixLen (digitsOf c.address) num

/-- Modelled from the spec: rule 4's explicit-prefix score, the length of
the longest declared matching number-prefix that is a literal prefix of the
URN's number, zero when none matches. -/
def Channel.prefixScore (c : Channel) (num : List Char) : Nat :=
  c.matchPrefixes.foldl
    (fun best p =>
      if p.toList.isPrefixOf num && decide (best < p.toList.length) then p.toList.length
      else best)
    0

/-- Modelled from the spec: select the candidate maximising a score, ties
broken in favour of the most recently declared candidate. -/
def pickBest (score : Channel → Nat) (cs : List Channel) : Option Channel :=
  cs.foldl
    (fun best c =>
      match best with
      | none => some c
      | some b => if score b ≤ score c then some c else some b)
    none

/-- Modelled from the spec: find a channel that declares a delegation
relation to the given channel and carries the required role. -/
def findDelegate (cs : List Channel) (c : Channel) (role : ChannelRole) : Option Channel :=
  cs.find? (fun d => decide (d.parentUUID = some c.uuid) && d.HasRole role)

/-- Modelled from the spec: rule 6, delegation - substitute a role-bearing
delegate for the selected candidate when one exists. -/
def applyDelegate (cs : List Channel) (sel : Channel) (role : ChannelRole) : Channel :=
  match findDelegate cs sel role with
  | some d => d
  | none => sel

/-- Modelled from the spec: the final acceptance step - after delegation, a
selection lacking the required role yields none. -/
def acceptSelection (cs : List Channel) (sel : Channel) (role : ChannelRole) : Option Channel :=
  let d := applyDelegate cs sel role
  if d.HasRole role then some d else none

/-- Modelled from the spec: rules 4 and 5 - among several candidates, pick
by explicit prefix when some candidate's declared prefix matches the URN
number, else by address overlap, ties always to the most recently declared
candidate. -/
def chooseCandidate (urn : ContactURN) (candidates : List Channel) : Option Channel :=
  if (candidates.filter (fun c => decide (0 < c.prefixScore (digitsOf urn.path)))).isEmpty then
    pickBest (fun c => c.overlap (digitsOf urn.path)) candidates
  else
    pickBest (fun c => c.prefixScore (digitsOf urn.path))
      (candidates.filter (fun c => decide (0 < c.prefixScore (digitsOf urn.path))))

/-- Modelled from the spec: scoring selection followed by delegation and
the final role check, for two or more candidates. -/
def selectByScore (cs : List Channel) (urn : ContactURN) (role : ChannelRole)
    (candidates : List Channel) : Option Channel :=
  match chooseCandidate urn candidates with
  | some c => acceptSelection cs c role
  | none => none

/-- Modelled from the spec: rules 2-6 for a URN with no pinned channel -
scheme filter, uniqueness shortcut, explicit-prefix match, country/overlap
match with later-declared tie-break, then delegation and role check. -/
def resolveByAddress (cs : List Channel) (urn : ContactURN) (role : ChannelRole) :
    Option Channel :=
  match cs.filter (fun c => c.schemes.contains urn.scheme) with
  | [] => none
  | [c] => acceptSelection cs c role
  | c0 :: c1 :: rest => selectByScore cs urn role (c0 :: c1 :: rest)

/-- Modelled from the spec: ResolveChannel, the contract of
ChannelAssets.GetForURN, whose implementation (flows/channel.go) is not
among the sources.  Rule 1 (pinned affinity) first: a pinned channel with
the role, else its role-bearing delegate, wins outright; otherwise resolve
by scheme and address. -/
def ResolveChannel (cs : List Channel) (urn : ContactURN) (role : ChannelRole) :
    Option Channel :=
  match urn.channel with
  | some c =>
    if c.HasRole role then some c
    else
      match findDelegate cs c role with
      | some d => some d
      | none => resolveByAddress cs urn role
  | none => resolveByAddress cs urn role

/-- The Claro channel of scenario C (country EC). -/
def claro : Channel :=
  { uuid := "claro", name := "Claro", address := "+593971111111",
    schemes := ["tel"], roles := [ChannelRole.send, ChannelRole.receive],
    country := some "EC", matchPrefixes := [], parentUUID := none }

/-- The MTN channel of scenario C (country RW, address ending 82222222). -/
def mtn : Channel :=
  { uuid := "mtn", name := "MTN", address := "+250782222222",
    schemes := ["tel"], roles := [ChannelRole.send, ChannelRole.receive],
    country := some "RW", matchPrefixes := [], parentUUID := none }

/-- The Tigo channel of scenario C (country RW, address ending 23333333). -/
def tigo : Channel :=
  { uuid := "tigo", name := "Tigo", address := "+250723333333",
    schemes := ["tel"], roles := [ChannelRole.send, ChannelRole.receive],
    country := some "RW", matchPrefixes := [], parentUUID := none }

/-- The channel set of scenario C, in declaration order. -/
def scenarioChannels : List Channel := [claro, mtn, tigo]

/-- C1: over the scenario-C channel set, send-role resolution picks MTN for
tel:+250781234567, Tigo for tel:+250721234567 and Tigo for
tel:+250962222222; the last is a genuine tie (both RW channels overlap the
number in 3 digits) broken in favour of the later-declared Tigo. -/
theorem claim_C1_overlap_resolution :
    ResolveChannel scenarioChannels
      { scheme := "tel", path := "+250781234567", channel := none } ChannelRole.send
      = some mtn ∧
    ResolveChannel scenarioChannels
      { scheme := "tel", path := "+250721234567", channel := none } ChannelRole.send
      = some tigo ∧
    ResolveChannel scenarioChannels
      { scheme := "tel", path := "+250962222222", channel := none } ChannelRole.send
      = some tigo ∧
    mtn.overlap (digitsOf "+250962222222") = 3 ∧
    tigo.overlap (digitsOf "+250962222222") = 3 := by
  refine ⟨?_, ?_, ?_, ?_, ?_⟩ <;> rfl

lemma findDelegate_some (cs : List Channel) (c : Channel) (role : ChannelRole)
    (d : Channel) (h : findDelegate cs c role = some d) :
    d.parentUUID = some c.uuid ∧ d.HasRole role = true := by
  have hp := List.find?_some h
  simpa [Bool.and_eq_true, decide_eq_true_eq] using hp

lemma findDelegate_none (cs : List Channel) (c : Channel) (role : ChannelRole)
    (h : findDelegate cs c role = none) :
    ∀ d ∈ cs, ¬(d.parentUUID = some c.uuid ∧ d.HasRole role = true) := by
  intro d hd hcon
  have := List.find?_eq_none.mp h d hd
  simp only [Bool.and_eq_true, decide_eq_true_eq] at this
  exact this ⟨hcon.1, hcon.2⟩

lemma acceptSelection_hasRole (cs : List Channel) (sel : Channel) (role : ChannelRole)
    (c : Channel) (h : acceptSelection cs sel role = some c) :
    c.HasRole role = true := by
  by_cases hr : (applyDelegate cs sel role).HasRole role = true
  · have hc : applyDelegate cs sel role = c := by
      simpa [acceptSelection, hr] using h
    rw [← hc]; exact hr
  · simp [acceptSelection, hr] at h

lemma selectByScore_hasRole (cs : List Channel) (urn : ContactURN) (role : ChannelRole)
    (candidates : List Channel) (c : Channel)
    (h : selectByScore cs urn role candidates = some c) :
    c.HasRole role = true := by
  unfold selectByScore at h
  cases hch : chooseCandidate urn candidates with
  | none => rw [hch] at h; exact absurd h (by simp)
  | some c0 =>
    rw [hch] at h
    exact acceptSelection_hasRole _ _ _ _ h

lemma resolveByAddress_hasRole (cs : List Channel) (urn : ContactURN) (role : ChannelRole)
    (c : Channel) (h : resolveByAddress cs urn role = some c) :
    c.HasRole role = true := by
  unfold resolveByAddress at h
  split at h
  · exact absurd h (by simp)
  · exact acceptSelection_hasRole _ _ _ _ h
  · exact selectByScore_hasRole _ _ _ _ _ h

lemma resolveChannel_hasRole (cs : List Channel) (urn : ContactURN) (role : ChannelRole)
    (c : Channel) (h : ResolveChannel cs urn role = some c) :
    c.HasRole role = true := by
  obtain ⟨sch, path, ch⟩ := urn
  cases ch with
  | none =>
    have h2 : resolveByAddress cs ⟨sch, path, none⟩ role = some c := h
    exact resolveByAddress_hasRole _ _ _ _ h2
  | some p =>
    have h2 : (if p.HasRole role = true then some p
        else
          match findDelegate cs p role with
          | some d => some d
          | none => resolveByAddress cs ⟨sch, path, some p⟩ role) = some c := h
    by_cases hr : p.HasRole role = true
    · rw [if_pos hr] at h2
      rw [← Option.some.inj h2]
      exact hr
    · rw [if_neg hr] at h2
      cases hd : findDelegate cs p role with
      | some d =>
        rw [hd] at h2
        have h3 : some d = some c := h2
        rw [← Option.some.inj h3]
        exact (findDelegate_some _ _ _ _ hd).2
      | none =>
        rw [hd] at h2
        have h3 : resolveByAddress cs ⟨sch, path, some p⟩ role = some c := h2
        exact resolveByAddress_hasRole _ _ _ _ h3

/-- C2: whenever the URN carries a pinned channel, resolution returns that
channel if it has the required role, and otherwise returns its role-bearing
delegate when one exists - in both cases independently of every other
candidate's address or overlap score. -/
theorem claim_C2_pinned_affinity (cs : List Channel) (urn : ContactURN)
    (role : ChannelRole) (c : Channel) (hp : urn.channel = some c) :
    (c.HasRole role = true → ResolveChannel cs urn role = some c) ∧
    (c.HasRole role = false → ∀ d, findDelegate cs c role = some d →
      ResolveChannel cs urn role = some d) := by
  constructor
  · intro h
    simp [ResolveChannel, hp, h]
  · intro h d hd
    simp [ResolveChannel, hp, h, hd]

/-- A URN pinned to the Tigo channel (the channel test binds
tel:+250962222222 to Tigo). -/
def urnPinned : ContactURN :=
  { scheme := "tel", path := "+250962222222", channel := some tigo }

/-- C2 (witness): the pinned-affinity theorem applied to the pinned URN of
the channel test. -/
theorem claim_C2_witness :
    urnPinned.channel = some tigo ∧ tigo.HasRole ChannelRole.send = true ∧
    ResolveChannel scenarioChannels urnPinned ChannelRole.send = some tigo :=
  ⟨rfl, rfl,
    (claim_C2_pinned_affinity scenarioChannels urnPinned ChannelRole.send tigo rfl).1 rfl⟩

/-- C3: resolution never returns a channel - in particular never a delegate
- lacking the required role; the delegation step either keeps the selected
candidate or substitutes a channel that delegates to it and carries the
role; and when a role-bearing delegate is declared, the substitution takes
place. -/
theorem claim_C3_delegation_role (cs : List Channel) (urn : ContactURN)
    (role : ChannelRole) :
    (∀ c, ResolveChannel cs urn role = some c → c.HasRole role = true) ∧
    (∀ sel, applyDelegate cs sel role = sel ∨
      ((applyDelegate cs sel role).parentUUID = some sel.uuid ∧
        (applyDelegate cs sel role).HasRole role = true)) ∧
    (∀ sel d, d ∈ cs → d.parentUUID = some sel.uuid → d.HasRole role = true →
      (applyDelegate cs sel role).parentUUID = some sel.uuid ∧
        (applyDelegate cs sel role).HasRole role = true) := by
  refine ⟨fun c h => resolveChannel_hasRole cs urn role c h, fun sel => ?_,
    fun sel d hd hpar hrole => ?_⟩
  · cases hf : findDelegate cs sel role with
    | none => exact Or.inl (by simp [applyDelegate, hf])
    | some e =>
      refine Or.inr ?_
      have he := findDelegate_some _ _ _ _ hf
      simpa [applyDelegate, hf] using he
  · cases hf : findDelegate cs sel role with
    | some e =>
      have he := findDelegate_some _ _ _ _ hf
      simpa [applyDelegate, hf] using he
    | none => exact absurd ⟨hpar, hrole⟩ (findDelegate_none cs sel role hf d hd)

/-- The Android channel of the delegation scenario. -/
def android : Channel :=
  { uuid := "android", name := "Android", address := "+250723333333",
    schemes := ["tel"], roles := [ChannelRole.send, ChannelRole.receive],
    country := none, matchPrefixes := [], parentUUID := none }

/-- The Bulk Sender channel, a send-only delegate of Android. -/
def bulk : Channel :=
  { uuid := "bulk", name := "Bulk Sender", address := "1234",
    schemes := ["tel"], roles := [ChannelRole.send],
    country := none, matchPrefixes := [], parentUUID := some "android" }

/-- Channel set of the delegation scenario, in declaration order. -/
def delegationChannels : List Channel := [android, bulk]

/-- An unpinned tel URN used by the delegation scenario. -/
def urnDelegate : ContactURN :=
  { scheme := "tel", path := "+250721234567", channel := none }

/-- C3 (witness): in the delegation scenario, resolving for send substitutes
the Bulk Sender delegate, which carries the role and delegates to the
selected Android channel. -/
theorem claim_C3_witness :
    ResolveChannel delegationChannels urnDelegate ChannelRole.send = some bulk ∧
    bulk.HasRole ChannelRole.send = true ∧
    bulk ∈ delegationChannels ∧ bulk.parentUUID = some android.uuid ∧
    (applyDelegate delegationChannels android ChannelRole.send).parentUUID
      = some android.uuid ∧
    (applyDelegate delegationChannels android ChannelRole.send).HasRole ChannelRole.send
      = true := by
  have h1 : ResolveChannel delegationChannels urnDelegate ChannelRole.send = some bulk := rfl
  have hmem : bulk ∈ delegationChannels := by simp [delegationChannels]
  have h3 := (claim_C3_delegation_role delegationChannels urnDelegate ChannelRole.send).2.2
    android bulk hmem rfl rfl
  exact ⟨h1,
    (claim_C3_delegation_role delegationChannels urnDelegate ChannelRole.send).1 bulk h1,
    hmem, rfl, h3.1, h3.2⟩

/- Sanity checks: the model reproduces the remaining expectations of
TestChannelSetGetForURN. -/

example :
    ResolveChannel [] { scheme := "tel", path := "+12345678999", channel := none }
      ChannelRole.send = none := rfl

example :
    ResolveChannel scenarioChannels
      { scheme := "mailto", path := "rowan@foo.bar", channel := none }
      ChannelRole.send = none := rfl

example :
    ResolveChannel scenarioChannels
      { scheme := "tel", path := "+593971234567", channel := none }
      ChannelRole.send = some claro := rfl

example :
    ResolveChannel delegationChannels urnDelegate ChannelRole.receive = some android := rfl

/-- Shortcode 1 with explicit matching prefixes 25078 and 25077. -/
def short1 : Channel :=
  { uuid := "short1", name := "Shortcode 1", address := "1234",
    schemes := ["tel"], roles := [ChannelRole.send],
    country := some "RW", matchPrefixes := ["25078", "25077"], parentUUID := none }

/-- Shortcode 2 with explicit matching prefix 25072. -/
def short2 : Channel :=
  { uuid := "short2", name := "Shortcode 2", address := "1235",
    schemes := ["tel"], roles := [ChannelRole.send],
    country := some "RW", matchPrefixes := ["25072"], parentUUID := none }

example :
    ResolveChannel [short1, short2]
      { scheme := "tel", path := "+250781234567", channel := none }
      ChannelRole.send = some short1 := rfl

example :
    ResolveChannel [short1, short2]
      { scheme := "tel", path := "+250771234567", channel := none }
      ChannelRole.send = some short1 := rfl

example :
    ResolveChannel [short1, short2]
      { scheme := "tel", path := "+250721234567", channel := none }
      ChannelRole.send = some short2 := rfl

/-- Modelled from the spec: the success result category of classification
actions (the string constant CategorySuccess of flows/actions is not among
the sources; the spec categorizes results as success/skipped/failure). -/
def CategorySuccess : String := "success"

/-- Modelled from the spec: the skipped result category (constant
CategorySkipped of flows/actions). -/
def CategorySkipped : String := "skipped"

/-- Modelled from the spec: the failure result category (constant
CategoryFailure of flows/actions). -/
def CategoryFailure : String := "failure"

/-- A reference to a classifier asset (assets.ClassifierReference: a uuid
and a name). -/
structure ClassifierReference where
  uuid : String
  name : String
deriving DecidableEq

/-- Modelled from the spec: the rendering of a classifier reference used in
error messages naming it (the assets reference code is not among the
sources). -/
def ClassifierReference.refString (r : ClassifierReference) : String :=
  "classifier[uuid=" ++ r.uuid ++ ",name=" ++ r.name ++ "]"

/-- A classifier asset instance as held in session assets. -/
structure Classifier where
  uuid : String
  name : String
deriving DecidableEq

/-- Classifier.Reference: the reference naming this classifier. -/
def Classifier.Reference (c : Classifier) : ClassifierReference :=
  { uuid := c.uuid, name := c.name }

/-- An intent extracted by a classifier; only its name matters here. -/
structure Intent where
  name : String
deriving DecidableEq

/-- A classification returned by the NLU service. -/
structure Classification where
  intents : List Intent
deriving DecidableEq

/-- The events the classifier action can log: error events
(events.NewError) and the external-call event (events.NewClassifierCalled,
carrying the classifier reference and the HTTP logs). -/
inductive Event where
  | error (message : String)
  | classifierCalled (classifier : ClassifierReference) (httpLogs : List String)
deriving DecidableEq

/-- Whether an event is the external-call (classifier-called) event. -/
def Event.isClassifierCalled : Event → Bool
  | .classifierCalled _ _ => true
  | .error _ => false

/-- A saved run result, as built by the saveResult helper the action calls
(flows/actions/base.go is not among the sources; the fields follow the call
sites in call_classifier.go: name, value, category, input and the optional
structured extra payload). -/
structure Result where
  name : String
  value : String
  category : String
  input : String
  extra : Option Classification
deriving DecidableEq

/-- CallClassifierAction (flows/actions/call_classifier.go): the classifier
reference, the templated input and the result name. -/
structure CallClassifierAction where
  classifier : ClassifierReference
  input : String
  resultName : String

/-- The session-dependent collaborators of Execute: the classifier asset as
looked up from session assets (none when the referenced asset is absent)
and the classification service, which is either unavailable (an error) or a
function from the input to the HTTP logs it produced and its outcome. -/
structure ClassifyEnv where
  classifier : Option Classifier
  service : Except String (String → List String × Except String Classification)

/-- CallClassifierAction.classify (call_classifier.go:83-105): the
classification if any, the skipped flag, the error if any, and the events
logged while classifying (the classifier-called event is logged exactly
when the service produced HTTP logs). -/
def CallClassifierAction.classify (a : CallClassifierAction) (env : ClassifyEnv)
    (input : String) : Option Classification × Bool × Option String × List Event :=
  if input = "" then
    (none, true, some "can\'t classify empty input, skipping classification", [])
  else
    match env.classifier with
    | none => (none, false, some ("missing " ++ a.classifier.refString), [])
    | some cl =>
      match env.service with
      | .error e => (none, false, some e, [])
      | .ok svc =>
        let evs :=
          if 0 < (svc input).1.length then [Event.classifierCalled cl.Reference (svc input).1]
          else []
        match (svc input).2 with
        | .ok classification => (some classification, false, none, evs)
        | .error e => (none, false, some e, evs)

/-- CallClassifierAction.saveSkipped (call_classifier.go:118-120). -/
def CallClassifierAction.saveSkipped (a : CallClassifierAction) (input : String) : Result :=
  { name := a.resultName, value := "0", category := CategorySkipped,
    input := input, extra := none }

/-- CallClassifierAction.saveFailure (call_classifier.go:122-124). -/
def CallClassifierAction.saveFailure (a : CallClassifierAction) (input : String) : Result :=
  { name := a.resultName, value := "0", category := CategoryFailure,
    input := input, extra := none }

/-- CallClassifierAction.saveSuccess (call_classifier.go:107-116): the value
is the name of the top ranked intent when there is one, and the full
classification rides along as extra. -/
def CallClassifierAction.saveSuccess (a : CallClassifierAction) (input : String)
    (classification : Classification) : Result :=
  { name := a.resultName,
    value := match classification.intents with
      | i :: _ => i.name
      | [] => ""
    category := CategorySuccess, input := input, extra := some classification }

/-- CallClassifierAction.Execute (call_classifier.go:57-81).  Template
evaluation is external, so its outcome is passed in: the evaluated input
and the evaluation error, if any, which is logged as an error event.
Returns the logged events in order, the results saved, and the error
returned by Execute - which is always none, as Execute returns nil on every
path. -/
def CallClassifierAction.Execute (a : CallClassifierAction) (env : ClassifyEnv)
    (evalInput : String) (evalErr : Option String) :
    List Event × List Result × Option String :=
  let evalEvents : List Event :=
    match evalErr with
    | some e => [Event.error e]
    | none => []
  match a.classify env evalInput with
  | (classification, skipped, err, evs) =>
    match err with
    | some e =>
      if skipped then
        (evalEvents ++ evs ++ [Event.error e], [a.saveSkipped evalInput], none)
      else
        (evalEvents ++ evs ++ [Event.error e], [a.saveFailure evalInput], none)
    | none =>
      match classification with
      | some cl => (evalEvents ++ evs, [a.saveSuccess evalInput cl], none)
      | none => (evalEvents ++ evs, [], none)

/-- C4: executing the classifier action on an empty evaluated input saves
one result under the action's result name with category skipped and value
0, and none of the logged events is the external-call (classifier-called)
event. -/
theorem claim_C4_empty_input_skips (a : CallClassifierAction) (env : ClassifyEnv)
    (evalErr : Option String) :
    (a.Execute env "" evalErr).2.1 =
      [{ name := a.resultName, value := "0", category := "skipped",
         input := "", extra := none }] ∧
    ∀ e ∈ (a.Execute env "" evalErr).1, e.isClassifierCalled = false := by
  constructor
  · cases evalErr <;> rfl
  · intro e he
    cases evalErr with
    | none =>
      have hev : (a.Execute env "" none).1 =
          [Event.error "can\'t classify empty input, skipping classification"] := rfl
      rw [hev] at he
      simp at he
      subst he
      rfl
    | some msg =>
      have hev : (a.Execute env "" (some msg)).1 =
          [Event.error msg,
           Event.error "can\'t classify empty input, skipping classification"] := rfl
      rw [hev] at he
      simp at he
      rcases he with rfl | rfl <;> rfl

/-- The Booking classifier of the action's documented example. -/
def bookingClassifier : Classifier := { uuid := "1c06c884", name := "Booking" }

/-- A concrete classifier action. -/
def sampleAction : CallClassifierAction :=
  { classifier := { uuid := "1c06c884", name := "Booking" },
    input := "@input.text", resultName := "Intent" }

/-- An environment where the classifier asset is present but the service is
unavailable (never consulted in the witness). -/
def sampleEnv : ClassifyEnv :=
  { classifier := some bookingClassifier, service := Except.error "service not configured" }

/-- C4 (witness): the empty-input theorem applied to a concrete action and
environment. -/
theorem claim_C4_witness :
    (sampleAction.Execute sampleEnv "" none).2.1 =
      [{ name := sampleAction.resultName, value := "0", category := "skipped",
         input := "", extra := none }] ∧
    ∀ e ∈ (sampleAction.Execute sampleEnv "" none).1, e.isClassifierCalled = false :=
  claim_C4_empty_input_skips sampleAction sampleEnv none

/-- C5: with a non-empty evaluated input and the referenced classifier
asset absent from session assets, Execute saves one failure result with
value 0, logs an error event naming the missing classifier, and itself
returns no error. -/
theorem claim_C5_missing_classifier (a : CallClassifierAction) (env : ClassifyEnv)
    (input : String) (evalErr : Option String)
    (hne : input ≠ "") (habs : env.classifier = none) :
    (a.Execute env input evalErr).2.1 =
      [{ name := a.resultName, value := "0", category := "failure",
         input := input, extra := none }] ∧
    Event.error ("missing " ++ a.classifier.refString) ∈ (a.Execute env input evalErr).1 ∧
    (a.Execute env input evalErr).2.2 = none := by
  have hcls : a.classify env input =
      (none, false, some ("missing " ++ a.classifier.refString), []) := by
    simp [CallClassifierAction.classify, hne, habs]
  refine ⟨?_, ?_, ?_⟩ <;>
    cases evalErr <;>
      simp [CallClassifierAction.Execute, hcls, CallClassifierAction.saveFailure,
        CategoryFailure]

/-- An environment whose classifier asset is absent. -/
def envMissing : ClassifyEnv :=
  { classifier := none, service := Except.error "service not configured" }

/-- C5 (witness): the missing-classifier theorem applied to a concrete
action, environment and input. -/
theorem claim_C5_witness :
    ("book a flight" ≠ "") ∧ envMissing.classifier = none ∧
    (sampleAction.Execute envMissing "book a flight" none).2.1 =
      [{ name := sampleAction.resultName, value := "0", category := "failure",
         input := "book a flight", extra := none }] ∧
    Event.error ("missing " ++ sampleAction.classifier.refString) ∈
      (sampleAction.Execute envMissing "book a flight" none).1 ∧
    (sampleAction.Execute envMissing "book a flight" none).2.2 = none := by
  have h := claim_C5_missing_classifier sampleAction envMissing "book a flight" none
    (by decide) rfl
  exact ⟨by decide, rfl, h.1, h.2.1, h.2.2⟩

/-- An HTTP response as seen by the asset fetcher: its status code, its
Content-Type header and its body. -/
structure HTTPResponse where
  statusCode : Nat
  contentType : String
  body : String
deriving DecidableEq

/-- ServerSource.fetchAsset (part_000:147-175), from the point where the
transport has answered: a transport error propagates unchanged, a non-200
status is an error naming the status code, a non-JSON content type is an
error, and otherwise the body is returned. -/
def fetchAsset (response : Except String HTTPResponse) : Except String String :=
  match response with
  | .error e => .error e
  | .ok r =>
    if r.statusCode ≠ 200 then
      .error ("request returned non-200 response (" ++ toString r.statusCode ++ ")")
    else if r.contentType ≠ "application/json" then
      .error "request returned non-JSON response"
    else
      .ok r.body

/-- C6: fetchAsset propagates transport errors unchanged, turns a non-200
status into an error naming the status code, turns a non-JSON content type
into an error, and returns a payload only for a 200 application/json
response. -/
theorem claim_C6_fetch_asset_errors :
    (∀ e, fetchAsset (Except.error e) = Except.error e) ∧
    (∀ r : HTTPResponse, r.statusCode ≠ 200 →
      fetchAsset (Except.ok r) =
        Except.error ("request returned non-200 response (" ++ toString r.statusCode ++ ")")) ∧
    (∀ r : HTTPResponse, r.statusCode = 200 → r.contentType ≠ "application/json" →
      fetchAsset (Except.ok r) = Except.error "request returned non-JSON response") ∧
    (∀ response b, fetchAsset response = Except.ok b →
      ∃ r, response = Except.ok r ∧ r.statusCode = 200 ∧
        r.contentType = "application/json" ∧ b = r.body) := by
  refine ⟨fun e => rfl, fun r h => ?_, fun r h1 h2 => ?_, fun response b h => ?_⟩
  · simp [fetchAsset, h]
  · simp [fetchAsset, h1, h2]
  · cases response with
    | error e => simp [fetchAsset] at h
    | ok r =>
      by_cases h1 : r.statusCode = 200
      · by_cases h2 : r.contentType = "application/json"
        · refine ⟨r, rfl, h1, h2, ?_⟩
          simp [fetchAsset, h1, h2] at h
          exact h.symm
        · simp [fetchAsset, h1, h2] at h
      · simp [fetchAsset, h1] at h

/-- A non-200 JSON response. -/
def responseTeapot : HTTPResponse :=
  { statusCode := 418, contentType := "application/json", body := "content" }

/-- A 200 response with a non-JSON content type. -/
def responseHTML : HTTPResponse :=
  { statusCode := 200, contentType := "text/html", body := "content" }

/-- C6 (witness): the three failure branches of the theorem at concrete
responses. -/
theorem claim_C6_witness :
    fetchAsset (Except.error "connection refused") = Except.error "connection refused" ∧
    responseTeapot.statusCode ≠ 200 ∧
    fetchAsset (Except.ok responseTeapot) =
      Except.error "request returned non-200 response (418)" ∧
    responseHTML.statusCode = 200 ∧ responseHTML.contentType ≠ "application/json" ∧
    fetchAsset (Except.ok responseHTML) = Except.error "request returned non-JSON response" := by
  refine ⟨claim_C6_fetch_asset_errors.1 "connection refused", by decide, ?_, rfl, by decide, ?_⟩
  · exact claim_C6_fetch_asset_errors.2.1 responseTeapot (by decide)
  · exact claim_C6_fetch_asset_errors.2.2.1 responseHTML rfl (by decide)

/-- An asset reference together with its Check predicate against session
assets; the session-assets type stays abstract. -/
structure Reference (SA : Type) where
  type : String
  identity : String
  check : SA → Bool

/-- flows.ExtractedReference: the originating node uuid, the originating
action uuid when the reference sits in an action, and the reference. -/
structure ExtractedReference (SA : Type) where
  nodeUUID : String
  actionUUID : Option String
  reference : Reference SA

/-- assets.TypedReference, the dependency payload of the issue: the asset
type and its identity. -/
structure TypedReference where
  type : String
  identity : String
deriving DecidableEq

/-- TypeMissingDependency (part_004:15). -/
def TypeMissingDependency : String := "missing_dependency"

/-- A flow definition; the check never reads it, so only its identity is
kept. -/
structure Flow where
  uuid : String

/-- The MissingDependency issue (part_004:18-34): the base issue fields
plus the dependency payload. -/
structure MissingDependency where
  type : String
  nodeUUID : String
  actionUUID : String
  description : String
  dependency : TypedReference
deriving DecidableEq

/-- newMissingDependency (part_004:24-34). -/
def newMissingDependency {SA : Type} (nodeUUID actionUUID : String)
    (ref : Reference SA) : MissingDependency :=
  { type := TypeMissingDependency, nodeUUID := nodeUUID, actionUUID := actionUUID,
    description := "missing " ++ ref.type ++ " dependency \'" ++ ref.identity ++ "\'",
    dependency := { type := ref.type, identity := ref.identity } }

/-- One step of MissingDependencyCheck's loop: a failing reference reports
one issue; the action uuid is the nil (empty) uuid when the reference has
no originating action. -/
def reportMissing {SA : Type} (sa : SA) (issues : List MissingDependency)
    (r : ExtractedReference SA) : List MissingDependency :=
  if r.reference.check sa then issues
  else issues ++ [newMissingDependency r.nodeUUID (r.actionUUID.getD "") r.reference]

/-- MissingDependencyCheck (part_004:37-47), with the report callback made
explicit as list accumulation. -/
def MissingDependencyCheck {SA : Type} (sa : SA) (flow : Flow)
    (refs : List (ExtractedReference SA)) : List MissingDependency :=
  refs.foldl (reportMissing sa) []

lemma missingDependencyCheck_foldl {SA : Type} (sa : SA)
    (refs : List (ExtractedReference SA)) (acc : List MissingDependency) :
    refs.foldl (reportMissing sa) acc =
      acc ++ (refs.filter (fun r => !(r.reference.check sa))).map
        (fun r => newMissingDependency r.nodeUUID (r.actionUUID.getD "") r.reference) := by
  induction refs generalizing acc with
  | nil => simp
  | cons r rest ih =>
    by_cases h : r.reference.check sa
    · simp [List.foldl_cons, reportMissing, h, ih]
    · simp [List.foldl_cons, reportMissing, h, ih]

/-- C7: the missing-dependency pass is a pure function of its inputs whose
output is exactly one issue, in order, for each reference whose Check
fails - carrying the reference's asset type and identity, its node uuid
and its action uuid (the empty nil uuid when absent) - and nothing for
references whose Check succeeds. -/
theorem claim_C7_missing_dependency_check {SA : Type} (sa : SA) (flow : Flow)
    (refs : List (ExtractedReference SA)) :
    MissingDependencyCheck sa flow refs =
      (refs.filter (fun r => !(r.reference.check sa))).map
        (fun r =>
          { type := TypeMissingDependency
            nodeUUID := r.nodeUUID
            actionUUID := r.actionUUID.getD ""
            description := "missing " ++ r.reference.type ++ " dependency \'" ++
              r.reference.identity ++ "\'"
            dependency := { type := r.reference.type, identity := r.reference.identity } }) := by
  unfold MissingDependencyCheck
  rw [missingDependencyCheck_foldl]
  simp [newMissingDependency]

end InclusiveFlow
